import Mathlib

/-!
Shallow embedding of the image-classification pipeline of the solar-panel
inspection backend: the `/predict` endpoint of `app/main.py` together with
its helper `save_classified_image`, the `PanelImage` / `SolarField` rows of
`app/models/models.py`, and the filesystem effects of the handler.

Machine conventions:
* pixel coordinates and confidences coming out of the detector are numpy
  floats in the source; they are embedded as `Rat` (the handler only adds,
  subtracts and halves them, all exact operations);
* the filesystem is an association list from path strings to file contents,
  where a write replaces any file already at that path (the semantics of
  `open(path, "wb")` / `PIL.Image.save`) and `os.remove` deletes the entry;
* the database is the list of existing `SolarField` ids (what
  `session.get(SolarField, field_id)` consults) plus the list of committed
  `PanelImage` rows;
* the YOLO model and the wall clock are opaque collaborators, passed in as
  an environment (`detect`, `names`, `today`);
* `raise HTTPException(...)` inside the handler's `try` block is caught by
  the handler's own `except Exception` clause (fastapi's `HTTPException`
  subclasses `Exception`), which re-raises `HTTPException(500, str(e))`;
  `str` of a starlette `HTTPException` renders as "{status_code}: {detail}".
-/

namespace SolarPanel

/-- A decoded in-memory image: its pixel dimensions plus an abstract
content identifier standing for the pixel data. -/
structure Img where
  width : Nat
  height : Nat
  data : Nat
deriving DecidableEq, Repr

/-- One YOLO detection box (main.py lines 147-152): corner coordinates
`xyxy`, confidence, and numeric class id resolved through `results.names`. -/
structure Box where
  x1 : Rat
  y1 : Rat
  x2 : Rat
  y2 : Rat
  conf : Rat
  cls : Nat
deriving DecidableEq, Repr

/-- Calendar date, the `datetime.now()` components used by
`save_classified_image` (main.py lines 87-88). -/
structure Date where
  year : Nat
  month : Nat
  day : Nat
deriving DecidableEq, Repr

/-- One entry of the JSON `predictions` list (main.py lines 191-198). -/
structure Prediction where
  x : Rat
  y : Rat
  width : Rat
  height : Rat
  confidence : Rat
  className : String
deriving DecidableEq, Repr

/-- A committed `PanelImage` row (models.py lines 28-35): path of the
classified image, foreign key to `SolarField`, comma-joined class string. -/
structure PanelImage where
  path : String
  field_id : Int
  image_class : String
deriving DecidableEq, Repr

/-- Database state: ids of existing `SolarField` rows (the pipeline only
checks existence) and the committed `PanelImage` rows. -/
structure DB where
  fields : List Int
  panel_images : List PanelImage
deriving DecidableEq, Repr

/-- Contents of a file: either the raw uploaded bytes (the temp copy) or an
annotated image — the opened upload with the detection overlays drawn on it
(main.py lines 128-188; drawing keeps the dimensions of `img`). -/
inductive FileData where
  | raw (img : Img)
  | annotated (img : Img) (boxes : List Box)
deriving DecidableEq, Repr

/-- The filesystem: an association list path ↦ contents. -/
abbrev FS := List (String × FileData)

/-- Look a path up in the filesystem. -/
def fsLookup (fs : FS) (p : String) : Option FileData :=
  match fs with
  | [] => none
  | (q, v) :: rest => if q = p then some v else fsLookup rest p

/-- Delete every entry at path `p` (the effect of `os.remove`). -/
def eraseKey (p : String) : FS → FS
  | [] => []
  | (q, v) :: rest => if q = p then eraseKey p rest else (q, v) :: eraseKey p rest

/-- Write `v` at path `p`, replacing any file already there (the semantics
of `open(p, "wb")` and of `PIL.Image.save`). -/
def fsWrite (p : String) (v : FileData) (fs : FS) : FS :=
  (p, v) :: eraseKey p fs

/-- Mutable state threaded through one request: filesystem and database. -/
structure St where
  fs : FS
  db : DB
deriving DecidableEq, Repr

/-- The request-supplied inputs of `/predict` (main.py lines 96-103):
the upload's declared content type and filename, its decoded image, and the
two optional integer parameters, `none` when the caller omitted them
(fastapi then substitutes the declared defaults `user_id: int = 0`,
`field_id: int = 0`). -/
structure PredictInput where
  content_type : String
  filename : String
  img : Img
  user_id : Option Int
  field_id : Option Int

/-- Opaque collaborators of the handler: the wall clock and the YOLO model
(`model.predict(cv2_image, conf=0.7, iou=0.5)[0]`, main.py line 125), split
into the returned boxes and the `results.names` class-id table. -/
structure Env where
  today : Date
  detect : Img → List Box
  names : Nat → String

/-- Result of one `/predict` request: the JSON success payload
(predictions list and `classified_image_path`) or an HTTP error response
with its status code and `detail` string. -/
inductive Outcome where
  | ok (preds : List Prediction) (classified_image_path : String)
  | err (status : Nat) (detail : String)
deriving DecidableEq, Repr

/-- HTTP status of an outcome (200 for the JSON success response). -/
def Outcome.status : Outcome → Nat
  | .ok _ _ => 200
  | .err s _ => s

/-- Rendering of `str(e)` for a fastapi/starlette `HTTPException`:
"{status_code}: {detail}".  This is what the handler's blanket
`except Exception as e: raise HTTPException(status_code=500, detail=str(e))`
(main.py lines 235-237) puts in the 500 response when the caught exception
is itself an `HTTPException`. -/
def httpExceptionStr (status : Nat) (detail : String) : String :=
  toString status ++ ": " ++ detail

/-- Decoding the temp file for inference (main.py line 122):
`cv2.imread(temp_image_path)` decodes the stored bytes at their original
resolution.  The handler applies no resizing between this read and
`model.predict` (line 125). -/
def cv2_imread (f : FileData) : Img :=
  match f with
  | .raw img => img
  | .annotated img _ => img

/-- Python `str.startswith` (main.py line 109), expressed over the
character sequence: `pre` is a prefix of `s`.  (Core `String.startsWith`
walks byte positions through primitives that the kernel cannot reduce;
prefix-of over the character list is the same predicate.) -/
def startsWithStr (s pre : String) : Bool := pre.data.isPrefixOf s.data

/-- Python `str.lower` (main.py line 155) on the ASCII class labels:
character-wise lower-casing.  (Extensionally `String.toLower`, written over
the character list so concrete instances reduce in the kernel.) -/
def lowerStr (s : String) : String := ⟨s.data.map Char.toLower⟩

/-- One step of `predicted_classes.add(label.lower())` (main.py line 155):
Python-set insertion, modelled as membership-checked append (iteration
order of the Python set is unspecified; only membership is relied on). -/
def insertClass (acc : List String) (l : String) : List String :=
  if l ∈ acc then acc else acc ++ [l]

/-- The aggregate class set built by the detection loop (main.py lines
143-155): each box's label, lower-cased, inserted into a set. -/
def aggregateClasses (boxes : List Box) (names : Nat → String) : List String :=
  boxes.foldl (fun acc b => insertClass acc (lowerStr (names b.cls))) []

/-- One entry appended to `predictions_list` (main.py lines 191-198):
center coordinates, width/height, confidence and the label text. -/
def buildPrediction (b : Box) (names : Nat → String) : Prediction :=
  { x := (b.x1 + b.x2) / 2
    y := (b.y1 + b.y2) / 2
    width := b.x2 - b.x1
    height := b.y2 - b.y1
    confidence := b.conf
    className := names b.cls }

/-- The full `predictions_list` built by the detection loop, one entry per
box in order (main.py lines 144-198). -/
def buildPredictions (boxes : List Box) (names : Nat → String) : List Prediction :=
  boxes.map (fun b => buildPrediction b names)

/-- The arguments of the `image.save(full_path)` call (main.py line 93):
only the destination path is passed — no explicit format and no quality
option appear in the call. -/
structure SaveCall where
  path : String
  format : Option String
  quality : Option Nat
deriving DecidableEq, Repr

/-- The save call made by `save_classified_image` for a given destination
path: `image.save(full_path)`, positional path only. -/
def save_call (full_path : String) : SaveCall :=
  { path := full_path, format := none, quality := none }

/-- The partition directory (main.py line 88):
f"classified_images/{today.year}/{today.month}/{today.day}/{user_id}". -/
def artifact_dir (today : Date) (user_id : Int) : String :=
  "classified_images/" ++
    (toString today.year ++ "/" ++ toString today.month ++ "/" ++
      toString today.day ++ "/" ++ toString user_id)

/-- The full artifact path (main.py line 92):
`os.path.join(directory, filename)`. -/
def artifact_path (today : Date) (user_id : Int) (filename : String) : String :=
  artifact_dir today user_id ++ "/" ++ filename

/-- Embedding of `save_classified_image` (main.py lines 84-94): build the
date/user partition directory, create it if absent (`os.makedirs(...,
exist_ok=True)`, idempotent, not tracked beyond the written path), save the
image at `os.path.join(directory, filename)` and return that path. -/
def save_classified_image (fs : FS) (today : Date) (image : FileData)
    (user_id : Int) (filename : String) : String × FS :=
  let directory := artifact_dir today user_id
  let full_path := directory ++ "/" ++ filename
  ((save_call full_path).path, fsWrite (save_call full_path).path image fs)

/-- Embedding of the `/predict` handler (main.py lines 96-237).  The
`try` body runs in order: content-type validation (line 109), temp-file
write (lines 116-119), decode (line 122), inference (line 125), the
detection loop building `predicted_classes` and `predictions_list` and
drawing the overlays (lines 143-198), `save_classified_image` (lines
200-204), field-existence check (lines 206-212), row insert and commit
(lines 214-222), temp-file removal (line 225), JSON response (lines
228-233).  A raised `HTTPException` is caught by the handler's own
`except Exception` clause (lines 235-237) and re-raised as status 500 with
`str(e)` as detail; effects already performed stay performed. -/
def predict (env : Env) (st : St) (inp : PredictInput) : Outcome × St :=
  let user_id : Int := inp.user_id.getD 0
  let field_id : Int := inp.field_id.getD 0
  if startsWithStr inp.content_type "image/" then
    let temp_image_path := "temp_" ++ inp.filename
    let fs1 := fsWrite temp_image_path (FileData.raw inp.img) st.fs
    let cv2_image := cv2_imread (FileData.raw inp.img)
    let results := env.detect cv2_image
    let predicted_classes := aggregateClasses results env.names
    let predictions_list := buildPredictions results env.names
    let annotated_image := FileData.annotated inp.img results
    let filename := "classified_" ++ inp.filename
    let saved := save_classified_image fs1 env.today annotated_image user_id filename
    let classified_image_path := saved.1
    let fs2 := saved.2
    if field_id ∈ st.db.fields then
      let image_class := String.intercalate "," predicted_classes
      let panel_image : PanelImage :=
        { path := classified_image_path, field_id := field_id, image_class := image_class }
      let db2 : DB := { st.db with panel_images := st.db.panel_images ++ [panel_image] }
      let fs3 := eraseKey temp_image_path fs2
      (Outcome.ok predictions_list classified_image_path, { fs := fs3, db := db2 })
    else
      (Outcome.err 500
          (httpExceptionStr 404 ("SolarField with ID " ++ toString field_id ++ " not found")),
        { st with fs := fs2 })
  else
    (Outcome.err 500 (httpExceptionStr 400 "Uploaded file is not an image."), st)

/-! Helper lemmas about the filesystem model, path strings and the class
aggregation, shared by the claim theorems below. -/

theorem fsLookup_eraseKey (fs : FS) (p q : String) :
    fsLookup (eraseKey p fs) q = if p = q then none else fsLookup fs q := by
  induction fs with
  | nil => simp [eraseKey, fsLookup]
  | cons e rest ih =>
    obtain ⟨k, v⟩ := e
    by_cases hkp : k = p
    · subst hkp
      by_cases hpq : k = q
      · subst hpq; simp [eraseKey, fsLookup, ih]
      · simp [eraseKey, fsLookup, hpq, ih]
    · by_cases hkq : k = q
      · subst hkq
        simp [eraseKey, fsLookup, hkp, Ne.symm hkp]
      · simp [eraseKey, fsLookup, hkp, hkq, ih]

theorem fsLookup_fsWrite (fs : FS) (p q : String) (v : FileData) :
    fsLookup (fsWrite p v fs) q = if p = q then some v else fsLookup fs q := by
  by_cases hpq : p = q
  · subst hpq; simp [fsWrite, fsLookup]
  · simp [fsWrite, fsLookup, hpq, fsLookup_eraseKey]

theorem fsLookup_eraseKey_self (fs : FS) (p : String) :
    fsLookup (eraseKey p fs) p = none := by
  simp [fsLookup_eraseKey]

theorem str_append_assoc (a b c : String) : a ++ b ++ c = a ++ (b ++ c) := by
  apply String.ext
  simp [String.data_append, List.append_assoc]

theorem artifact_path_shape (d : Date) (u : Int) (fn : String) :
    artifact_path d u fn =
      "classified_images/" ++
        (toString d.year ++ "/" ++ toString d.month ++ "/" ++
          toString d.day ++ "/" ++ toString u ++ "/" ++ fn) := by
  simp only [artifact_path, artifact_dir, str_append_assoc]

theorem temp_ne_classified (s t : String) :
    "temp_" ++ s ≠ "classified_images/" ++ t := by
  intro h
  have h2 : ("temp_" ++ s).data = ("classified_images/" ++ t).data := by rw [h]
  rw [String.data_append, String.data_append] at h2
  have e1 : "temp_".data = ['t', 'e', 'm', 'p', '_'] := rfl
  have e2 : "classified_images/".data =
      ['c', 'l', 'a', 's', 's', 'i', 'f', 'i', 'e', 'd', '_',
        'i', 'm', 'a', 'g', 'e', 's', '/'] := rfl
  rw [e1, e2] at h2
  have h3 := congrArg List.head? h2
  simp at h3

theorem temp_ne_artifact_path (s : String) (d : Date) (u : Int) (fn : String) :
    "temp_" ++ s ≠ artifact_path d u fn := by
  rw [artifact_path_shape]
  exact temp_ne_classified _ _

theorem toFinset_insertClass (acc : List String) (l : String) :
    (insertClass acc l).toFinset = insert l acc.toFinset := by
  unfold insertClass
  split
  · rename_i h
    exact (Finset.insert_eq_self.mpr (List.mem_toFinset.mpr h)).symm
  · ext x
    simp [or_comm]

theorem aggregate_foldl (boxes : List Box) (names : Nat → String) (acc : List String) :
    (boxes.foldl (fun a b => insertClass a (lowerStr (names b.cls))) acc).toFinset
      = acc.toFinset ∪ (boxes.map (fun b => lowerStr (names b.cls))).toFinset := by
  induction boxes generalizing acc with
  | nil => simp
  | cons b bs ih =>
    simp only [List.foldl_cons, List.map_cons, List.toFinset_cons]
    rw [ih, toFinset_insertClass, Finset.insert_union, Finset.union_insert]

theorem save_classified_image_eq (fs : FS) (d : Date) (img : FileData)
    (u : Int) (fn : String) :
    save_classified_image fs d img u fn
      = (artifact_path d u fn, fsWrite (artifact_path d u fn) img fs) := rfl

theorem predict_bad_content_type (env : Env) (st : St) (inp : PredictInput)
    (hct : startsWithStr inp.content_type "image/" = false) :
    predict env st inp
      = (Outcome.err 500 (httpExceptionStr 400 "Uploaded file is not an image."), st) := by
  simp only [predict, hct, Bool.false_eq_true, if_false]

theorem predict_field_missing (env : Env) (st : St) (inp : PredictInput)
    (hct : startsWithStr inp.content_type "image/" = true)
    (hmem : inp.field_id.getD 0 ∉ st.db.fields) :
    predict env st inp
      = (Outcome.err 500
            (httpExceptionStr 404
              ("SolarField with ID " ++ toString (inp.field_id.getD 0) ++ " not found")),
          { fs := fsWrite (artifact_path env.today (inp.user_id.getD 0) ("classified_" ++ inp.filename))
                    (FileData.annotated inp.img (env.detect (cv2_imread (FileData.raw inp.img))))
                    (fsWrite ("temp_" ++ inp.filename) (FileData.raw inp.img) st.fs),
            db := st.db }) := by
  simp only [predict, hct, if_true, save_classified_image_eq, hmem, if_false]

theorem predict_success (env : Env) (st : St) (inp : PredictInput)
    (hct : startsWithStr inp.content_type "image/" = true)
    (hmem : inp.field_id.getD 0 ∈ st.db.fields) :
    predict env st inp
      = (Outcome.ok (buildPredictions (env.detect (cv2_imread (FileData.raw inp.img))) env.names)
            (artifact_path env.today (inp.user_id.getD 0) ("classified_" ++ inp.filename)),
          { fs := eraseKey ("temp_" ++ inp.filename)
                    (fsWrite (artifact_path env.today (inp.user_id.getD 0) ("classified_" ++ inp.filename))
                      (FileData.annotated inp.img (env.detect (cv2_imread (FileData.raw inp.img))))
                      (fsWrite ("temp_" ++ inp.filename) (FileData.raw inp.img) st.fs)),
            db := { fields := st.db.fields,
                    panel_images := st.db.panel_images ++
                      [{ path := artifact_path env.today (inp.user_id.getD 0) ("classified_" ++ inp.filename),
                         field_id := inp.field_id.getD 0,
                         image_class := String.intercalate ","
                           (aggregateClasses (env.detect (cv2_imread (FileData.raw inp.img))) env.names) }] } }) := by
  simp only [predict, hct, if_true, save_classified_image_eq, hmem, if_true]

/-! Claim C6. -/

/-- C6: the Artifact Store is deterministic and idempotent in
(date, userId, filename): the returned path is a function of
(date, userId, filename) alone, calling `save_classified_image` twice with
the same date, userId and filename returns the identical path both times,
and the second call overwrites the first file — the final filesystem holds
the second image at that path and has a file at exactly the same set of
paths as after the first call, so no second file is created. -/
theorem save_classified_image_deterministic_idempotent :
    ∀ (fs fs2 : FS) (d : Date) (img img2 : FileData) (u : Int) (fn : String),
      (save_classified_image fs d img u fn).1 = artifact_path d u fn ∧
      (save_classified_image fs2 d img2 u fn).1 = (save_classified_image fs d img u fn).1 ∧
      (save_classified_image (save_classified_image fs d img u fn).2 d img2 u fn).1
        = (save_classified_image fs d img u fn).1 ∧
      fsLookup (save_classified_image (save_classified_image fs d img u fn).2 d img2 u fn).2
        (artifact_path d u fn) = some img2 ∧
      ∀ q : String,
        (fsLookup (save_classified_image (save_classified_image fs d img u fn).2 d img2 u fn).2 q).isSome
          = (fsLookup (save_classified_image fs d img u fn).2 q).isSome := by
  intro fs fs2 d img img2 u fn
  refine ⟨rfl, rfl, rfl, ?_, ?_⟩
  · simp [save_classified_image_eq, fsLookup_fsWrite]
  · intro q
    by_cases h : artifact_path d u fn = q
    · simp [save_classified_image_eq, fsLookup_fsWrite, h]
    · simp [save_classified_image_eq, fsLookup_fsWrite, h]

/-! Claim C7. -/

/-- C7 counterexample: the claim that every stored artifact is written with
a fixed lossy quality setting of approximately 85% is false — at the
concrete path used by a run of the pipeline, the save call
`image.save(full_path)` passes no quality option at all. -/
theorem save_call_quality_counterexample :
    (save_call (artifact_path ⟨2024, 5, 17⟩ 3 "classified_a.jpg")).quality = none ∧
    ¬ (save_call (artifact_path ⟨2024, 5, 17⟩ 3 "classified_a.jpg")).quality = some 85 := by
  exact ⟨rfl, by simp [save_call]⟩

/-- C7 amended: the Artifact Store's save call passes only the destination
path — no explicit quality setting and no explicit format; the image is
written with the imaging library's default encoder parameters. -/
theorem save_call_no_quality_no_format :
    ∀ full_path : String,
      (save_call full_path).quality = none ∧ (save_call full_path).format = none := by
  intro full_path
  exact ⟨rfl, rfl⟩

/-! Concrete sample requests used to instantiate the claim theorems. -/

/-- Sample calendar date. -/
def sampleDate : Date := ⟨2024, 5, 17⟩

/-- Sample decoded upload: a 1200 × 900 image. -/
def sampleImg : Img := ⟨1200, 900, 7⟩

/-- Sample environment: the model finds no detections. -/
def envOK : Env := { today := sampleDate, detect := fun _ => [], names := fun _ => "Dusty" }

/-- Sample state with one existing SolarField (id 1) and empty filesystem. -/
def stOK : St := { fs := [], db := { fields := [1], panel_images := [] } }

/-- Sample valid request from user 3 against existing field 1. -/
def inpOK : PredictInput :=
  { content_type := "image/jpeg", filename := "a.jpg", img := sampleImg,
    user_id := some 3, field_id := some 1 }

/-- The artifact path produced for `inpOK` on `sampleDate`. -/
def pathOK : String := "classified_images/2024/5/17/3/classified_a.jpg"

/-- The final state of the successful sample run. -/
def stOKend : St :=
  { fs := [(pathOK, FileData.annotated sampleImg [])],
    db := { fields := [1],
            panel_images := [{ path := pathOK, field_id := 1, image_class := "" }] } }

/-- Sample state with no SolarField rows at all. -/
def stMiss : St := { fs := [], db := { fields := [], panel_images := [] } }

/-- Sample request referencing the nonexistent field 7. -/
def inpMiss : PredictInput :=
  { content_type := "image/jpeg", filename := "a.jpg", img := sampleImg,
    user_id := some 3, field_id := some 7 }

/-- Sample request whose upload declares `content_type="text/plain"`. -/
def inpTxt : PredictInput :=
  { content_type := "text/plain", filename := "notes.txt", img := ⟨10, 10, 2⟩,
    user_id := some 3, field_id := some 1 }

/-- Sample request referencing the nonexistent field 5. -/
def inpF5 : PredictInput :=
  { content_type := "image/png", filename := "b.png", img := ⟨64, 64, 9⟩,
    user_id := some 2, field_id := some 5 }

/-! Claim C1. -/

/-- C1 counterexample: the claim that a nonexistent `field_id` short-circuits
before any artifact write is false at a concrete request — field 7 does not
exist, yet after the run a file is present under the artifact partition
(the handler calls `save_classified_image` before the field-existence
check). -/
theorem field_missing_artifact_written_counterexample :
    (inpMiss.field_id.getD 0) ∉ stMiss.db.fields ∧
    fsLookup (predict envOK stMiss inpMiss).2.fs
        "classified_images/2024/5/17/3/classified_a.jpg" ≠ none := by
  decide

/-- C1 amended: for a `/predict` request whose `field_id` references no
existing SolarField (and whose upload passes content-type validation), no
database row is created — but the annotated artifact has already been
written under the artifact partition before the field-existence check runs,
and the request fails with status 500.  Only the database write is
short-circuited. -/
theorem field_missing_no_row_but_artifact :
    ∀ (env : Env) (st : St) (inp : PredictInput),
      startsWithStr inp.content_type "image/" = true →
      inp.field_id.getD 0 ∉ st.db.fields →
      (predict env st inp).2.db = st.db ∧
      fsLookup (predict env st inp).2.fs
          (artifact_path env.today (inp.user_id.getD 0) ("classified_" ++ inp.filename))
        = some (FileData.annotated inp.img (env.detect (cv2_imread (FileData.raw inp.img)))) ∧
      (predict env st inp).1.status = 500 := by
  intro env st inp hct hmem
  rw [predict_field_missing env st inp hct hmem]
  refine ⟨rfl, ?_, rfl⟩
  simp [fsLookup_fsWrite]

/-- C1 witness: the amended statement at the concrete missing-field
request. -/
theorem field_missing_no_row_but_artifact_witness :
    (predict envOK stMiss inpMiss).2.db = stMiss.db ∧
    fsLookup (predict envOK stMiss inpMiss).2.fs
        (artifact_path envOK.today (inpMiss.user_id.getD 0) ("classified_" ++ inpMiss.filename))
      = some (FileData.annotated inpMiss.img (envOK.detect (cv2_imread (FileData.raw inpMiss.img)))) ∧
    (predict envOK stMiss inpMiss).1.status = 500 :=
  field_missing_no_row_but_artifact envOK stMiss inpMiss (by decide) (by decide)

/-! Claim C2. -/

/-- C2: uploading a non-image file (`content_type="text/plain"`) creates no
artifact and no record — the state is returned untouched — but the response
is NOT a 400: the handler's own `except Exception` clause catches the
`HTTPException(400)` it just raised and re-raises it as status 500 with the
original message embedded in the detail string.  This contradicts both the
explicit `status_code=400` in the source and the spec's taxonomy (code
bug). -/
theorem text_plain_rejected_with_500_not_400 :
    predict envOK stOK inpTxt
      = (Outcome.err 500 "400: Uploaded file is not an image.", stOK) ∧
    (predict envOK stOK inpTxt).1.status ≠ 400 := by
  decide

/-! Claim C3. -/

/-- C3: for a request whose `field_id` (here 5) references no SolarField,
the handler raises `HTTPException(404, "SolarField with ID 5 not found")`,
but its own `except Exception` clause catches that exception and re-raises
it as status 500 with detail "404: SolarField with ID 5 not found" — so the
client sees neither status 404 nor the exact claimed detail string (code
bug). -/
theorem missing_field_rejected_with_500_not_404 :
    (predict envOK stMiss inpF5).1
      = Outcome.err 500 "404: SolarField with ID 5 not found" ∧
    (predict envOK stMiss inpF5).1.status ≠ 404 ∧
    (predict envOK stMiss inpF5).1 ≠ Outcome.err 404 "SolarField with ID 5 not found" := by
  decide

/-! Claim C4. -/

/-- Sample detections for the aggregation claim: two boxes with distinct
class ids. -/
def boxesW4 : List Box := [⟨0, 0, 2, 2, 1, 0⟩, ⟨1, 1, 3, 3, 1, 1⟩]

/-- Sample class-id table for the aggregation claim. -/
def namesW4 : Nat → String := fun n => if n = 0 then "Dusty" else "Clean"

/-- C4: the aggregated class set equals the set of lower-cased class labels
of the detections (duplicates collapsed); the empty detection sequence
aggregates to the empty set; and an empty aggregate propagates downstream
as a successful run — the response is the success payload and exactly one
`PanelImage` row is appended, with the empty class string. -/
theorem aggregate_set_spec_and_empty_success :
    ∀ (boxes : List Box) (names : Nat → String),
      (aggregateClasses boxes names).toFinset
        = (boxes.map (fun b => lowerStr (names b.cls))).toFinset ∧
      aggregateClasses [] names = [] ∧
      ∀ (env : Env) (st : St) (inp : PredictInput),
        startsWithStr inp.content_type "image/" = true →
        inp.field_id.getD 0 ∈ st.db.fields →
        env.detect (cv2_imread (FileData.raw inp.img)) = [] →
        (predict env st inp).1
          = Outcome.ok []
              (artifact_path env.today (inp.user_id.getD 0) ("classified_" ++ inp.filename)) ∧
        (predict env st inp).2.db.panel_images
          = st.db.panel_images ++
              [{ path := artifact_path env.today (inp.user_id.getD 0) ("classified_" ++ inp.filename),
                 field_id := inp.field_id.getD 0,
                 image_class := "" }] := by
  intro boxes names
  refine ⟨?_, rfl, ?_⟩
  · simpa [aggregateClasses] using aggregate_foldl boxes names []
  · intro env st inp hct hmem hdet
    rw [predict_success env st inp hct hmem]
    constructor
    · simp [hdet, buildPredictions]
    · simp [hdet, aggregateClasses]
      decide

/-- C4 witness: the set identity at two concrete detections and the
empty-aggregate success path at the concrete valid request. -/
theorem aggregate_set_spec_and_empty_success_witness :
    ((aggregateClasses boxesW4 namesW4).toFinset
      = (boxesW4.map (fun b => lowerStr (namesW4 b.cls))).toFinset) ∧
    ((predict envOK stOK inpOK).1
        = Outcome.ok []
            (artifact_path envOK.today (inpOK.user_id.getD 0) ("classified_" ++ inpOK.filename)) ∧
      (predict envOK stOK inpOK).2.db.panel_images
        = stOK.db.panel_images ++
            [{ path := artifact_path envOK.today (inpOK.user_id.getD 0) ("classified_" ++ inpOK.filename),
               field_id := inpOK.field_id.getD 0,
               image_class := "" }]) :=
  ⟨(aggregate_set_spec_and_empty_success boxesW4 namesW4).1,
    (aggregate_set_spec_and_empty_success boxesW4 namesW4).2.2 envOK stOK inpOK
      (by decide) (by decide) (by decide)⟩

/-! Claim C5. -/

/-- C5 counterexample: the claim that images whose longer side exceeds the
configured 800px maximum are downscaled so that the longer side equals 800
before inference is false — there is no resizing code in the handler; a
1200 × 900 upload reaches inference at 1200 × 900. -/
theorem decoder_downscale_counterexample :
    ¬ (∀ i : Img, 800 < max i.width i.height →
        max (cv2_imread (FileData.raw i)).width (cv2_imread (FileData.raw i)).height = 800) := by
  intro h
  exact absurd (h ⟨1200, 900, 7⟩ (by decide)) (by decide)

/-- C5 amended: the decoder performs no downscaling at all — every decoded
image is handed to inference at its original size, whatever its dimensions,
and on a successful run the stored artifact carries the original-size image
annotated with the detections. -/
theorem decoder_passes_original_size :
    ∀ (env : Env) (st : St) (inp : PredictInput) (preds : List Prediction)
      (path : String) (st' : St),
      predict env st inp = (Outcome.ok preds path, st') →
      cv2_imread (FileData.raw inp.img) = inp.img ∧
      fsLookup st'.fs path
        = some (FileData.annotated inp.img (env.detect (cv2_imread (FileData.raw inp.img)))) := by
  intro env st inp preds path st' h
  by_cases hct : startsWithStr inp.content_type "image/" = true
  · by_cases hmem : inp.field_id.getD 0 ∈ st.db.fields
    · rw [predict_success env st inp hct hmem] at h
      have h1 := congrArg Prod.fst h
      have h2 := congrArg Prod.snd h
      simp only [] at h1 h2
      injection h1 with hpreds hpath
      refine ⟨rfl, ?_⟩
      rw [← h2, ← hpath]
      rw [fsLookup_eraseKey, if_neg (temp_ne_artifact_path _ _ _ _), fsLookup_fsWrite,
        if_pos rfl]
    · rw [predict_field_missing env st inp hct hmem] at h
      exact absurd (congrArg Prod.fst h) (by simp)
  · rw [predict_bad_content_type env st inp (by simpa using hct)] at h
    exact absurd (congrArg Prod.fst h) (by simp)

/-- C5 witness: the amended statement at the concrete successful run of the
1200 × 900 sample upload. -/
theorem decoder_passes_original_size_witness :
    cv2_imread (FileData.raw inpOK.img) = inpOK.img ∧
    fsLookup stOKend.fs pathOK
      = some (FileData.annotated inpOK.img (envOK.detect (cv2_imread (FileData.raw inpOK.img)))) :=
  decoder_passes_original_size envOK stOK inpOK [] pathOK stOKend (by decide)

/-! Claim C8. -/

/-- C8 counterexample: the claim that the temporary copy of the upload is
removed on every failure path is false — after the concrete run whose
`field_id` (7) does not exist, the request fails (status 500) and the temp
file is still present in the filesystem. -/
theorem temp_file_left_after_failure_counterexample :
    (predict envOK stMiss inpMiss).1.status = 500 ∧
    fsLookup (predict envOK stMiss inpMiss).2.fs "temp_a.jpg"
      = some (FileData.raw sampleImg) := by
  decide

/-- C8 amended: the temp copy of the upload is removed on the success path
only — after a successful run no file remains at the temp path, but on a
failure past content-type validation (here: nonexistent field) the temp
file is left behind, because `os.remove` is only reached after the commit. -/
theorem temp_file_removed_only_on_success :
    ∀ (env : Env) (st : St) (inp : PredictInput),
      (∀ (preds : List Prediction) (path : String) (st' : St),
        predict env st inp = (Outcome.ok preds path, st') →
        fsLookup st'.fs ("temp_" ++ inp.filename) = none) ∧
      (startsWithStr inp.content_type "image/" = true →
       inp.field_id.getD 0 ∉ st.db.fields →
       fsLookup (predict env st inp).2.fs ("temp_" ++ inp.filename)
         = some (FileData.raw inp.img)) := by
  intro env st inp
  constructor
  · intro preds path st' h
    by_cases hct : startsWithStr inp.content_type "image/" = true
    · by_cases hmem : inp.field_id.getD 0 ∈ st.db.fields
      · rw [predict_success env st inp hct hmem] at h
        have h2 := congrArg Prod.snd h
        simp only [] at h2
        rw [← h2]
        exact fsLookup_eraseKey_self _ _
      · rw [predict_field_missing env st inp hct hmem] at h
        exact absurd (congrArg Prod.fst h) (by simp)
    · rw [predict_bad_content_type env st inp (by simpa using hct)] at h
      exact absurd (congrArg Prod.fst h) (by simp)
  · intro hct hmem
    rw [predict_field_missing env st inp hct hmem]
    rw [fsLookup_fsWrite, if_neg (Ne.symm (temp_ne_artifact_path _ _ _ _)),
      fsLookup_fsWrite, if_pos rfl]

/-- C8 witness: the success half at the concrete successful run, and the
failure half at the concrete missing-field run. -/
theorem temp_file_removed_only_on_success_witness :
    fsLookup stOKend.fs ("temp_" ++ inpOK.filename) = none ∧
    fsLookup (predict envOK stMiss inpMiss).2.fs ("temp_" ++ inpMiss.filename)
      = some (FileData.raw inpMiss.img) :=
  ⟨(temp_file_removed_only_on_success envOK stOK inpOK).1 [] pathOK stOKend (by decide),
    (temp_file_removed_only_on_success envOK stMiss inpMiss).2 (by decide) (by decide)⟩

/-! Claim C9. -/

/-- C9: in the success response, the predictions list encodes each
detection box center-based — entry i has x = (x1+x2)/2, y = (y1+y2)/2,
width = x2-x1, height = y2-y1 (together with the confidence and the class
label), in one-to-one positional correspondence with the detections. -/
theorem predictions_center_encoded :
    ∀ (env : Env) (st : St) (inp : PredictInput) (preds : List Prediction)
      (path : String) (st' : St),
      predict env st inp = (Outcome.ok preds path, st') →
      preds = buildPredictions (env.detect (cv2_imread (FileData.raw inp.img))) env.names ∧
      ∀ i : Nat,
        preds[i]?
          = ((env.detect (cv2_imread (FileData.raw inp.img)))[i]?).map
              (fun b =>
                { x := (b.x1 + b.x2) / 2
                  y := (b.y1 + b.y2) / 2
                  width := b.x2 - b.x1
                  height := b.y2 - b.y1
                  confidence := b.conf
                  className := env.names b.cls }) := by
  intro env st inp preds path st' h
  by_cases hct : startsWithStr inp.content_type "image/" = true
  · by_cases hmem : inp.field_id.getD 0 ∈ st.db.fields
    · rw [predict_success env st inp hct hmem] at h
      have h1 := congrArg Prod.fst h
      simp only [] at h1
      injection h1 with hpreds hpath
      refine ⟨hpreds.symm, ?_⟩
      intro i
      rw [← hpreds]
      simp [buildPredictions, List.getElem?_map, buildPrediction]
    · rw [predict_field_missing env st inp hct hmem] at h
      exact absurd (congrArg Prod.fst h) (by simp)
  · rw [predict_bad_content_type env st inp (by simpa using hct)] at h
    exact absurd (congrArg Prod.fst h) (by simp)

/-- C9 witness: the positional correspondence at the concrete successful
run. -/
theorem predictions_center_encoded_witness :
    ([] : List Prediction)
      = buildPredictions (envOK.detect (cv2_imread (FileData.raw inpOK.img))) envOK.names ∧
    ∀ i : Nat,
      ([] : List Prediction)[i]?
        = ((envOK.detect (cv2_imread (FileData.raw inpOK.img)))[i]?).map
            (fun b =>
              { x := (b.x1 + b.x2) / 2
                y := (b.y1 + b.y2) / 2
                width := b.x2 - b.x1
                height := b.y2 - b.y1
                confidence := b.conf
                className := envOK.names b.cls }) :=
  predictions_center_encoded envOK stOK inpOK [] pathOK stOKend (by decide)

/-! Claim C10. -/

/-- C10: omitting `user_id` and `field_id` is not a validation error — the
request runs with the declared default 0 for both: behaviour is identical
to passing 0 explicitly, and (when no field 0 exists) the artifact is
stored under user partition 0 while the field-existence check is performed
against id 0 (the 404 message names ID 0, re-wrapped to 500 by the
handler's blanket exception clause). -/
theorem omitted_params_default_to_zero :
    ∀ (env : Env) (st : St) (ct fn : String) (img : Img),
      predict env st
          { content_type := ct, filename := fn, img := img, user_id := none, field_id := none }
        = predict env st
          { content_type := ct, filename := fn, img := img, user_id := some 0, field_id := some 0 } ∧
      (startsWithStr ct "image/" = true →
       st.db.fields = [] →
       (predict env st
            { content_type := ct, filename := fn, img := img, user_id := none, field_id := none }).1
          = Outcome.err 500
              (httpExceptionStr 404 ("SolarField with ID " ++ toString (0 : Int) ++ " not found")) ∧
       fsLookup (predict env st
            { content_type := ct, filename := fn, img := img, user_id := none, field_id := none }).2.fs
            (artifact_path env.today 0 ("classified_" ++ fn))
          = some (FileData.annotated img (env.detect (cv2_imread (FileData.raw img))))) := by
  intro env st ct fn img
  refine ⟨rfl, ?_⟩
  intro hct hfields
  have hmem0 : (0 : Int) ∉ st.db.fields := by simp [hfields]
  rw [predict_field_missing env st
    { content_type := ct, filename := fn, img := img, user_id := none, field_id := none }
    hct hmem0]
  refine ⟨rfl, ?_⟩
  simp [fsLookup_fsWrite]

/-- C10 witness: the omitted-parameter behaviour at the concrete sample
upload against an empty SolarField table. -/
theorem omitted_params_default_to_zero_witness :
    (predict envOK stMiss
        { content_type := "image/jpeg", filename := "a.jpg", img := sampleImg,
          user_id := none, field_id := none }).1
      = Outcome.err 500
          (httpExceptionStr 404 ("SolarField with ID " ++ toString (0 : Int) ++ " not found")) ∧
    fsLookup (predict envOK stMiss
        { content_type := "image/jpeg", filename := "a.jpg", img := sampleImg,
          user_id := none, field_id := none }).2.fs
        (artifact_path envOK.today 0 ("classified_" ++ "a.jpg"))
      = some (FileData.annotated sampleImg (envOK.detect (cv2_imread (FileData.raw sampleImg)))) :=
  (omitted_params_default_to_zero envOK stMiss "image/jpeg" "a.jpg" sampleImg).2
    (by decide) (by decide)

end SolarPanel
